import Mathlib

/-!
Verification development for the Sound Alert Pro server
(`src/sound_server.py`).  The monitoring-loop subsystem is embedded
shallowly: Python dicts become association lists (first-match lookup,
in-place update, append for fresh keys — Python's insertion-order
semantics), floats become rationals, wall-clock readings become explicit
parameters, and every externally visible action of the loop (CSV
logging, console prints, WebSocket emits, sleeps) becomes an element of
an `Effect` list returned alongside the successor state.
-/

namespace SoundAlertPro

/-- Python `d.get(k, default)` on a string-keyed dict: value at the first
matching key, else the default. -/
def getD {α : Type} : List (String × α) → String → α → α
  | [], _, d => d
  | (k', v) :: rest, k, d => if k' = k then v else getD rest k d

/-- Python `d[k] = v` on a string-keyed dict: replace the value at the first
matching key, else append the new binding at the end (insertion order). -/
def setK {α : Type} : List (String × α) → String → α → List (String × α)
  | [], k, v => [(k, v)]
  | (k', v') :: rest, k, v =>
      if k' = k then (k, v) :: rest else (k', v') :: setK rest k v

/-- Python `k in d` / `d.get(k)` as an `Option`: `some` of the first
matching value. -/
def lookupK {α : Type} : List (String × α) → String → Option α
  | [], _ => none
  | (k', v) :: rest, k => if k' = k then some v else lookupK rest k

/-- Sum of all values of a string-keyed counter dict. -/
def sumVals : List (String × Nat) → Nat
  | [] => 0
  | (_, v) :: rest => v + sumVals rest

/-- Python's `<=` on strings, on the underlying character lists:
lexicographic comparison by code point, shorter prefix first. -/
def pyCharsLe : List Char → List Char → Bool
  | [], _ => true
  | _ :: _, [] => false
  | a :: as, b :: bs => if a < b then true else if b < a then false else pyCharsLe as bs

/-- Python's `s1 <= s2` on strings (code-point lexicographic order);
on zero-padded `"HH:MM"` strings this is exactly time-of-day order. -/
def pyStrLe (a b : String) : Bool := pyCharsLe a.data b.data

/-- Python's `s1 >= s2` on strings. -/
def pyStrGe (a b : String) : Bool := pyStrLe b a

/-- `schedule_config` (sound_server.py lines 38–43). -/
structure ScheduleConfig where
  enabled : Bool
  start_time : String
  end_time : String
  days : List String
  deriving DecidableEq

/-- `is_within_schedule` (lines 91–104).  The ambient clock readings
`now.strftime("%a")` and `now.strftime("%H:%M")` are passed explicitly as
`day_name` and `current_time`. -/
def is_within_schedule (cfg : ScheduleConfig) (day_name : String)
    (current_time : String) : Bool :=
  if !cfg.enabled then
    true
  else if !(cfg.days.contains day_name) then
    false
  else if pyStrLe cfg.start_time cfg.end_time then
    pyStrLe cfg.start_time current_time && pyStrLe current_time cfg.end_time
  else
    pyStrGe current_time cfg.start_time || pyStrLe current_time cfg.end_time

/-- One entry of `sound_stats["daily_timeline"]` (lines 111–116). -/
structure TimelineEntry where
  timestamp : String
  sound : String
  confidence : ℚ
  epoch : ℚ
  deriving DecidableEq

/-- The `sound_stats` global (lines 45–50). -/
structure SoundStats where
  hourly_counts : List (String × Nat)
  sound_frequency : List (String × Nat)
  daily_timeline : List TimelineEntry
  session_start : Option String
  deriving DecidableEq

/-- Arguments of one `update_stats` call, with the ambient clock readings
(`datetime.now().strftime("%Y-%m-%d %H:00")` and `time.time()`) made
explicit as `hour_key` and `epoch`. -/
structure StatsEvent where
  sound_name : String
  confidence : ℚ
  timestamp_str : String
  hour_key : String
  epoch : ℚ
  deriving DecidableEq

/-- The timeline dict literal appended by `update_stats` (lines 111–116). -/
def mkTimelineEntry (e : StatsEvent) : TimelineEntry :=
  ⟨e.timestamp_str, e.sound_name, e.confidence, e.epoch⟩

/-- `update_stats` (lines 107–118): bump the hourly bucket, bump the label
frequency, append a timeline entry, and keep only the last 200 entries
(`lst[-200:]`) when the timeline exceeds 200. -/
def update_stats (st : SoundStats) (e : StatsEvent) : SoundStats :=
  let hourly := setK st.hourly_counts e.hour_key (getD st.hourly_counts e.hour_key 0 + 1)
  let freq := setK st.sound_frequency e.sound_name (getD st.sound_frequency e.sound_name 0 + 1)
  let tl := st.daily_timeline ++ [mkTimelineEntry e]
  let tl' := if tl.length > 200 then tl.drop (tl.length - 200) else tl
  { st with hourly_counts := hourly, sound_frequency := freq, daily_timeline := tl' }

/-- `CRITICAL_SOUNDS` (lines 52–70): static label → priority table. -/
def CRITICAL_SOUNDS : List (String × Nat) :=
  [("Fire alarm", 10),
   ("Smoke detector, smoke alarm", 10),
   ("Siren", 9),
   ("Police car (siren)", 9),
   ("Ambulance (siren)", 9),
   ("Fire engine, fire truck (siren)", 9),
   ("Civil defense siren", 9),
   ("Shatter", 8),
   ("Glass", 8),
   ("Explosion", 8),
   ("Baby cry, infant cry", 7),
   ("Crying, sobbing", 7),
   ("Screaming", 7),
   ("Car alarm", 6),
   ("Doorbell", 3),
   ("Knock", 3),
   ("Ding-dong", 3)]

/-- `NOTIFICATION_COOLDOWN = 30` (line 33), the base cooldown in seconds. -/
def NOTIFICATION_COOLDOWN : ℚ := 30

/-- `CONFIDENCE_THRESHOLD = 0.25` (line 126), as an exact rational. -/
def CONFIDENCE_THRESHOLD : ℚ := mkRat 1 4

/-- The priority-tiered cooldown (lines 193–197): 10 s for priority ≥ 8,
20 s for priority ≥ 6, else the base cooldown. -/
def effective_cooldown (priority : Nat) : ℚ :=
  if priority ≥ 8 then 10
  else if priority ≥ 6 then 20
  else NOTIFICATION_COOLDOWN

/-- The per-sound cooldown decision and its state update (lines 189–206):
`last_notification_times.get(sound_name, 0)` is compared against the
tiered cooldown; on a positive decision the label's last-fired time is
set to `current_time` (line 202), otherwise the map is untouched. -/
def should_fire (lnt : List (String × ℚ)) (sound_name : String)
    (priority : Nat) (current_time : ℚ) : Bool × List (String × ℚ) :=
  let last_time := getD lnt sound_name 0
  let cooldown := effective_cooldown priority
  if current_time - last_time ≥ cooldown then
    (true, setK lnt sound_name current_time)
  else
    (false, lnt)

/-- The `alert_data` dict built at lines 177–183. -/
structure AlertData where
  sound : String
  confidence : ℚ
  timestamp : String
  priority : Nat
  id : Int
  deriving DecidableEq

/-- Externally visible actions of one monitoring iteration. -/
inductive Effect where
  | log_csv (sound_name : String) (confidence : ℚ) (priority : Nat) (timestamp_str : String)
  | emit_sound_alert (a : AlertData)
  | print_detected (sound_name : String) (priority : Nat)
  | print_alert_sent
  | print_throttled (sound_name : String)
  | print_not_enabled
  | print_error
  | sleep (seconds : ℚ)
  deriving DecidableEq

/-- The mutable globals touched by the monitoring loop. -/
structure ServerState where
  schedule : ScheduleConfig
  enabled_sounds : List String
  recent_alerts : List AlertData
  last_notification_times : List (String × ℚ)
  sound_stats : SoundStats
  deriving DecidableEq

/-- Lines 166–216 of `sound_monitoring_thread`: handling of one
classification result.  Ambient clock readings (`time.strftime`,
`datetime.now`, two `time.time()` calls and the millisecond id) are the
explicit parameters `timestamp_str`, `hour_key`, `epoch`, `current_time`
and `alert_id`. -/
def process_detection (st : ServerState) (sound_name : String) (confidence : ℚ)
    (timestamp_str hour_key : String) (epoch current_time : ℚ) (alert_id : Int) :
    ServerState × List Effect :=
  if confidence > CONFIDENCE_THRESHOLD then
    let priority := getD CRITICAL_SOUNDS sound_name 1
    let is_enabled := st.enabled_sounds.isEmpty || st.enabled_sounds.contains sound_name
    if is_enabled then
      let alert : AlertData := ⟨sound_name, confidence, timestamp_str, priority, alert_id⟩
      let stats' := update_stats st.sound_stats ⟨sound_name, confidence, timestamp_str, hour_key, epoch⟩
      let sf := should_fire st.last_notification_times sound_name priority current_time
      let ra := st.recent_alerts ++ [alert]
      let ra' := if ra.length > 50 then ra.drop 1 else ra
      ({ st with sound_stats := stats', last_notification_times := sf.2, recent_alerts := ra' },
       [Effect.print_detected sound_name priority,
        Effect.log_csv sound_name confidence priority timestamp_str,
        if sf.1 then Effect.print_alert_sent else Effect.print_throttled sound_name,
        Effect.emit_sound_alert alert])
    else
      (st, [Effect.print_detected sound_name priority, Effect.print_not_enabled])
  else
    (st, [])

/-- What one pass of the `try` block produced after the schedule gate:
either a classification result (the post-argmax label/confidence plus the
clock readings consumed downstream), or an exception raised anywhere in
the block.  An exception carries the mutation of the globals already
committed before the raise point. -/
inductive CycleOutcome where
  | cycle (sound_name : String) (confidence : ℚ) (timestamp_str hour_key : String)
      (epoch current_time : ℚ) (alert_id : Int)
  | exn (committed : ServerState → ServerState)

/-- External inputs of one `while` iteration: the value of the
`is_monitoring` flag observed at the loop condition, the clock readings
consumed by the schedule gate, and the outcome of the `try` block. -/
structure CycleInput where
  flag : Bool
  day_name : String
  current_time_str : String
  outcome : CycleOutcome

/-- The body of one iteration of `sound_monitoring_thread` (lines
135–220): an inactive schedule sleeps 10 s and skips capture; an
exception anywhere in the `try` block is caught, printed, and followed by
a 1 s sleep. -/
def loop_iter (st : ServerState) (inp : CycleInput) : ServerState × List Effect :=
  if !(is_within_schedule st.schedule inp.day_name inp.current_time_str) then
    (st, [Effect.sleep 10])
  else
    match inp.outcome with
    | CycleOutcome.cycle n conf ts hk ep ct aid => process_detection st n conf ts hk ep ct aid
    | CycleOutcome.exn f => (f st, [Effect.print_error, Effect.sleep 1])

/-- The `while is_monitoring` loop (line 134) over a finite trace of
iteration inputs: each iteration first reads the flag and exits when it
is false, otherwise runs the body and continues. -/
def monitor_loop (st : ServerState) : List CycleInput → ServerState × List Effect
  | [] => (st, [])
  | inp :: rest =>
      if inp.flag then
        let r := loop_iter st inp
        let r' := monitor_loop r.1 rest
        (r'.1, r.2 ++ r'.2)
      else (st, [])

/-- Lines 148–155 of the loop: resample when the capture rate differs
from 16 kHz (requesting `int(len * 16000 / rate)` samples), then trim to
the first 15600 samples or right-pad with zeros to 15600.  The external
band-limited resampler (`scipy.signal.resample`) is a parameter. -/
def prepare (resample : List ℚ → Nat → List ℚ) (audio_data : List ℚ)
    (sample_rate : Nat) : List ℚ :=
  let audio_data := if sample_rate ≠ 16000 then
      resample audio_data (audio_data.length * 16000 / sample_rate)
    else audio_data
  if audio_data.length > 15600 then
    audio_data.take 15600
  else if audio_data.length < 15600 then
    audio_data ++ List.replicate (15600 - audio_data.length) 0
  else
    audio_data

/-- Python `base.update(data)` on dicts: fold the updates over the base,
each existing key overwritten in place, each fresh key appended. -/
def dictUpdate {α : Type} (base delta : List (String × α)) : List (String × α) :=
  delta.foldl (fun acc kv => setK acc kv.1 kv.2) base

/-- The POST branch of `manage_schedule` (lines 272–281): a missing or
falsy (empty) JSON body leaves the configuration untouched, otherwise the
stored dict is merged with `schedule_config.update(data)`. -/
def manage_schedule_post {α : Type} (cfg : List (String × α))
    (data : Option (List (String × α))) : List (String × α) :=
  match data with
  | some d => if d.isEmpty then cfg else dictUpdate cfg d
  | none => cfg

/-- The initial value of the `sound_stats` global (lines 45–50). -/
def sound_stats_init : SoundStats := ⟨[], [], [], none⟩

/-- The initial value of the `schedule_config` global (lines 38–43). -/
def schedule_config_init : ScheduleConfig :=
  ⟨false, "22:00", "07:00", ["Mon", "Tue", "Wed", "Thu", "Fri", "Sat", "Sun"]⟩

/-- The globals as initialised at startup (lines 27–50). -/
def server_state_init : ServerState :=
  ⟨schedule_config_init, [], [], [], sound_stats_init⟩

/-- An enabled overnight schedule, the spec's 22:00–07:00 example. -/
def overnight_cfg : ScheduleConfig :=
  ⟨true, "22:00", "07:00", ["Mon", "Tue", "Wed", "Thu", "Fri", "Sat", "Sun"]⟩

/-- A lookup that misses leaves `getD` at its default. -/
theorem lookupK_eq_none_getD {α : Type} (m : List (String × α)) (k : String)
    (d : α) (h : lookupK m k = none) : getD m k d = d := by
  induction m with
  | nil => rfl
  | cons hd tl ih =>
    obtain ⟨k', v⟩ := hd
    simp only [lookupK] at h
    simp only [getD]
    by_cases hk : k' = k
    · rw [if_pos hk] at h
      exact absurd h (by simp)
    · rw [if_neg hk] at h
      rw [if_neg hk]
      exact ih h

/-- `setK` stores the new value at its own key. -/
theorem lookupK_setK_self {α : Type} (m : List (String × α)) (k : String)
    (v : α) : lookupK (setK m k v) k = some v := by
  induction m with
  | nil => simp [setK, lookupK]
  | cons hd tl ih =>
    obtain ⟨k', v'⟩ := hd
    by_cases hk : k' = k
    · simp [setK, lookupK, hk]
    · simp [setK, lookupK, hk, ih]

/-- `setK` leaves every other key's first binding untouched. -/
theorem lookupK_setK_ne {α : Type} (m : List (String × α)) (k' k : String)
    (v : α) (h : k' ≠ k) : lookupK (setK m k' v) k = lookupK m k := by
  induction m with
  | nil => simp [setK, lookupK, h]
  | cons hd tl ih =>
    obtain ⟨k₀, v₀⟩ := hd
    by_cases hk : k₀ = k'
    · subst hk
      simp [setK, lookupK, h]
    · simp [setK, lookupK, hk, ih]

/-- Bumping one counter of a dict raises the total by exactly one. -/
theorem sumVals_bump (m : List (String × Nat)) (k : String) :
    sumVals (setK m k (getD m k 0 + 1)) = sumVals m + 1 := by
  induction m with
  | nil => simp [setK, getD, sumVals]
  | cons hd tl ih =>
    obtain ⟨k', v⟩ := hd
    by_cases hk : k' = k
    · subst hk
      simp [setK, getD, sumVals]
      omega
    · simp only [getD, setK, if_neg hk, sumVals]
      rw [ih]
      omega

/-- C4: the schedule gate is permissive when disabled; when enabled it
rejects weekdays outside the configured day set, accepts on a same-day
window (`start ≤ end`) iff `start ≤ now ≤ end`, and accepts on an
overnight window (`start > end`) iff `now ≥ start` or `now ≤ end`. -/
theorem C4_schedule_gate (cfg : ScheduleConfig) (day_name current_time : String) :
    (cfg.enabled = false → is_within_schedule cfg day_name current_time = true) ∧
    (cfg.enabled = true → day_name ∉ cfg.days →
        is_within_schedule cfg day_name current_time = false) ∧
    (cfg.enabled = true → day_name ∈ cfg.days →
        pyStrLe cfg.start_time cfg.end_time = true →
        (is_within_schedule cfg day_name current_time = true ↔
          (pyStrLe cfg.start_time current_time = true ∧
           pyStrLe current_time cfg.end_time = true))) ∧
    (cfg.enabled = true → day_name ∈ cfg.days →
        pyStrLe cfg.start_time cfg.end_time = false →
        (is_within_schedule cfg day_name current_time = true ↔
          (pyStrGe current_time cfg.start_time = true ∨
           pyStrLe current_time cfg.end_time = true))) := by
  refine ⟨?_, ?_, ?_, ?_⟩
  · intro h
    simp [is_within_schedule, h]
  · intro h hd
    simp [is_within_schedule, h, hd]
  · intro h hd hle
    simp [is_within_schedule, h, hd, hle]
  · intro h hd hle
    simp [is_within_schedule, h, hd, hle]

/-- Witness for C4 at the spec's overnight example: the 22:00–07:00
window with all weekdays active is an overnight window, the gate agrees
with the disjunctive characterisation at 23:30, and concretely the gate
accepts 23:30 and 06:00 and rejects 12:00. -/
theorem C4_schedule_gate_witness :
    overnight_cfg.enabled = true ∧
    "Mon" ∈ overnight_cfg.days ∧
    pyStrLe overnight_cfg.start_time overnight_cfg.end_time = false ∧
    (is_within_schedule overnight_cfg "Mon" "23:30" = true ↔
      (pyStrGe "23:30" overnight_cfg.start_time = true ∨
       pyStrLe "23:30" overnight_cfg.end_time = true)) ∧
    is_within_schedule overnight_cfg "Mon" "23:30" = true ∧
    is_within_schedule overnight_cfg "Mon" "06:00" = true ∧
    is_within_schedule overnight_cfg "Mon" "12:00" = false :=
  ⟨rfl, by decide, by decide,
   (C4_schedule_gate overnight_cfg "Mon" "23:30").2.2.2 rfl (by decide) (by decide),
   by decide, by decide, by decide⟩

/-- C2 (amended): the cooldown decision is true iff the elapsed time
since the label's recorded last-fired time is at least the tiered
effective cooldown (10 s for priority ≥ 8, 20 s for 6 ≤ priority < 8,
the 30 s base otherwise); a label with no recorded last-fired time is
treated as having last fired at time 0, so for it the decision is true
iff `now` is at least the effective cooldown. -/
theorem C2_cooldown_decision (lnt : List (String × ℚ)) (label : String)
    (priority : Nat) (now : ℚ) :
    ((should_fire lnt label priority now).1 = true ↔
        now - getD lnt label 0 ≥ effective_cooldown priority) ∧
    (priority ≥ 8 → effective_cooldown priority = 10) ∧
    (6 ≤ priority → priority < 8 → effective_cooldown priority = 20) ∧
    (priority < 6 → effective_cooldown priority = NOTIFICATION_COOLDOWN) ∧
    (lookupK lnt label = none →
        ((should_fire lnt label priority now).1 = true ↔
          now ≥ effective_cooldown priority)) := by
  refine ⟨?_, ?_, ?_, ?_, ?_⟩
  · unfold should_fire
    dsimp only
    split
    · rename_i h
      simp [h]
    · rename_i h
      simp [h]
  · intro h
    unfold effective_cooldown
    rw [if_pos h]
  · intro h6 h8
    unfold effective_cooldown
    rw [if_neg (by omega), if_pos h6]
  · intro h
    unfold effective_cooldown
    rw [if_neg (by omega), if_neg (by omega)]
  · intro hnone
    have h0 : getD lnt label 0 = 0 := lookupK_eq_none_getD lnt label 0 hnone
    unfold should_fire
    dsimp only
    rw [h0]
    split
    · rename_i hcond
      rw [sub_zero] at hcond
      simp [hcond]
    · rename_i hcond
      rw [sub_zero] at hcond
      simp [hcond]

/-- Counterexample to C2 as stated: the code treats a missing last-fired
entry as time 0 (`last_notification_times.get(sound_name, 0)`), not as
infinitely long ago, so for a fresh label at `now = 5` with base cooldown
30 s the decision is false, though the claim says it is true at any now. -/
theorem C2_cooldown_decision_counterexample :
    (should_fire ([] : List (String × ℚ)) "Doorbell" 3 5).1 = false := by
  simp only [should_fire, getD, effective_cooldown, NOTIFICATION_COOLDOWN]
  norm_num

/-- Witness for C2 at a concrete input: priority 10 is in the ≥ 8 tier,
the empty cooldown map has no entry for "Fire alarm", and the decision at
`now = 100` is characterised by `now ≥ effective cooldown`. -/
theorem C2_cooldown_decision_witness :
    8 ≤ 10 ∧
    lookupK ([] : List (String × ℚ)) "Fire alarm" = none ∧
    effective_cooldown 10 = 10 ∧
    ((should_fire ([] : List (String × ℚ)) "Fire alarm" 10 100).1 = true ↔
      (100 : ℚ) ≥ effective_cooldown 10) :=
  ⟨by decide, rfl,
   (C2_cooldown_decision [] "Fire alarm" 10 100).2.1 (by decide),
   (C2_cooldown_decision [] "Fire alarm" 10 100).2.2.2.2 rfl⟩

/-- C3: the cooldown decision's only state effect is to stamp the
decided label with `now` when it fires; on a negative decision the map is
untouched, and in both cases every other label's entry is unchanged. -/
theorem C3_cooldown_frame (lnt : List (String × ℚ)) (label : String)
    (priority : Nat) (now : ℚ) :
    ((should_fire lnt label priority now).1 = true →
        (should_fire lnt label priority now).2 = setK lnt label now) ∧
    ((should_fire lnt label priority now).1 = false →
        (should_fire lnt label priority now).2 = lnt) ∧
    (∀ l, l ≠ label →
        lookupK (should_fire lnt label priority now).2 l = lookupK lnt l) := by
  unfold should_fire
  dsimp only
  split
  · refine ⟨fun _ => rfl, fun h => by simp at h, fun l hl => ?_⟩
    exact lookupK_setK_ne lnt label l now (Ne.symm hl)
  · exact ⟨fun h => by simp at h, fun _ => rfl, fun _ _ => rfl⟩

/-- Witness for C3 at a concrete input: a "Siren" entry last fired at 0
fires again at `now = 100`, its entry is restamped, and the unrelated
"Doorbell" key is unaffected. -/
theorem C3_cooldown_frame_witness :
    (should_fire [("Siren", (0 : ℚ))] "Siren" 9 100).1 = true ∧
    (should_fire [("Siren", (0 : ℚ))] "Siren" 9 100).2
        = setK [("Siren", (0 : ℚ))] "Siren" 100 ∧
    "Doorbell" ≠ "Siren" ∧
    lookupK (should_fire [("Siren", (0 : ℚ))] "Siren" 9 100).2 "Doorbell"
        = lookupK [("Siren", (0 : ℚ))] "Doorbell" :=
  have hfst : (should_fire [("Siren", (0 : ℚ))] "Siren" 9 100).1 = true := by
    simp [should_fire, getD, effective_cooldown]
    decide
  ⟨hfst,
   (C3_cooldown_frame [("Siren", (0 : ℚ))] "Siren" 9 100).1 hfst,
   by decide,
   (C3_cooldown_frame [("Siren", (0 : ℚ))] "Siren" 9 100).2.2 "Doorbell" (by decide)⟩

/-- Reduction of `process_detection` on the accepted-and-enabled path. -/
theorem process_detection_enabled_eq (st : ServerState) (sound_name : String)
    (confidence : ℚ) (timestamp_str hour_key : String) (epoch current_time : ℚ)
    (alert_id : Int)
    (hconf : confidence > CONFIDENCE_THRESHOLD)
    (hen : (st.enabled_sounds.isEmpty || st.enabled_sounds.contains sound_name) = true) :
    process_detection st sound_name confidence timestamp_str hour_key epoch current_time alert_id
      = ({ st with
            sound_stats := update_stats st.sound_stats
              ⟨sound_name, confidence, timestamp_str, hour_key, epoch⟩,
            last_notification_times :=
              (should_fire st.last_notification_times sound_name
                (getD CRITICAL_SOUNDS sound_name 1) current_time).2,
            recent_alerts :=
              if (st.recent_alerts ++ [AlertData.mk sound_name confidence timestamp_str
                    (getD CRITICAL_SOUNDS sound_name 1) alert_id]).length > 50 then
                (st.recent_alerts ++ [AlertData.mk sound_name confidence timestamp_str
                    (getD CRITICAL_SOUNDS sound_name 1) alert_id]).drop 1
              else
                st.recent_alerts ++ [AlertData.mk sound_name confidence timestamp_str
                    (getD CRITICAL_SOUNDS sound_name 1) alert_id] },
         [Effect.print_detected sound_name (getD CRITICAL_SOUNDS sound_name 1),
          Effect.log_csv sound_name confidence (getD CRITICAL_SOUNDS sound_name 1) timestamp_str,
          if (should_fire st.last_notification_times sound_name
                (getD CRITICAL_SOUNDS sound_name 1) current_time).1 then
            Effect.print_alert_sent
          else Effect.print_throttled sound_name,
          Effect.emit_sound_alert ⟨sound_name, confidence, timestamp_str,
            getD CRITICAL_SOUNDS sound_name 1, alert_id⟩]) := by
  unfold process_detection
  rw [if_pos hconf]
  dsimp only
  rw [if_pos hen]

/-- Reduction of `process_detection` on the accepted-but-not-enabled path. -/
theorem process_detection_not_enabled_eq (st : ServerState) (sound_name : String)
    (confidence : ℚ) (timestamp_str hour_key : String) (epoch current_time : ℚ)
    (alert_id : Int)
    (hconf : confidence > CONFIDENCE_THRESHOLD)
    (hen : (st.enabled_sounds.isEmpty || st.enabled_sounds.contains sound_name) = false) :
    process_detection st sound_name confidence timestamp_str hour_key epoch current_time alert_id
      = (st, [Effect.print_detected sound_name (getD CRITICAL_SOUNDS sound_name 1),
              Effect.print_not_enabled]) := by
  unfold process_detection
  rw [if_pos hconf]
  dsimp only
  rw [if_neg (by rw [hen]; simp)]

/-- C5: a classification cycle whose confidence is at or below the 0.25
acceptance threshold is discarded atomically — no effect of any kind and
the whole server state exactly unchanged. -/
theorem C5_below_threshold_discard (st : ServerState) (sound_name : String)
    (confidence : ℚ) (timestamp_str hour_key : String) (epoch current_time : ℚ)
    (alert_id : Int) (h : confidence ≤ CONFIDENCE_THRESHOLD) :
    process_detection st sound_name confidence timestamp_str hour_key epoch current_time alert_id
      = (st, []) := by
  unfold process_detection
  rw [if_neg (not_lt.mpr h)]

/-- Witness for C5 at a concrete input: confidence 0.10 is below the
threshold and the cycle leaves the startup state untouched with no
effects. -/
theorem C5_below_threshold_discard_witness :
    mkRat 1 10 ≤ CONFIDENCE_THRESHOLD ∧
    process_detection server_state_init "Doorbell" (mkRat 1 10) "10:00:00"
        "2025-09-14 10:00" 100 100 123 = (server_state_init, []) :=
  ⟨by decide,
   C5_below_threshold_discard server_state_init "Doorbell" (mkRat 1 10) "10:00:00"
     "2025-09-14 10:00" 100 100 123 (by decide)⟩

/-- C8: an above-threshold detection is accepted for downstream
processing iff the enabled-sounds list is empty (no filter) or contains
the label under exact string equality; a non-enabled detection causes
none of the downstream effects (state exactly unchanged, console prints
only) and never errors. -/
theorem C8_enablement_filter (st : ServerState) (sound_name : String)
    (confidence : ℚ) (timestamp_str hour_key : String) (epoch current_time : ℚ)
    (alert_id : Int) (hconf : confidence > CONFIDENCE_THRESHOLD) :
    ((Effect.emit_sound_alert ⟨sound_name, confidence, timestamp_str,
          getD CRITICAL_SOUNDS sound_name 1, alert_id⟩
        ∈ (process_detection st sound_name confidence timestamp_str hour_key
            epoch current_time alert_id).2)
      ↔ (st.enabled_sounds = [] ∨ sound_name ∈ st.enabled_sounds)) ∧
    ((st.enabled_sounds.isEmpty || st.enabled_sounds.contains sound_name) = false →
      (process_detection st sound_name confidence timestamp_str hour_key
          epoch current_time alert_id).1 = st ∧
      (process_detection st sound_name confidence timestamp_str hour_key
          epoch current_time alert_id).2
        = [Effect.print_detected sound_name (getD CRITICAL_SOUNDS sound_name 1),
           Effect.print_not_enabled]) := by
  by_cases hen : (st.enabled_sounds.isEmpty || st.enabled_sounds.contains sound_name) = true
  · rw [process_detection_enabled_eq st sound_name confidence timestamp_str hour_key
        epoch current_time alert_id hconf hen]
    constructor
    · have hor : st.enabled_sounds = [] ∨ sound_name ∈ st.enabled_sounds := by
        simpa [List.isEmpty_iff] using hen
      constructor
      · intro _
        exact hor
      · intro _
        simp
    · intro hfalse
      rw [hen] at hfalse
      exact Bool.noConfusion hfalse
  · have hen' : (st.enabled_sounds.isEmpty || st.enabled_sounds.contains sound_name) = false := by
      simpa using hen
    have hne : ¬(st.enabled_sounds = [] ∨ sound_name ∈ st.enabled_sounds) := by
      intro hor
      rcases hor with h1 | h1
      · rw [h1] at hen'
        simp at hen'
      · simp [h1] at hen'
    rw [process_detection_not_enabled_eq st sound_name confidence timestamp_str hour_key
        epoch current_time alert_id hconf hen']
    constructor
    · constructor
      · intro hmem
        simp at hmem
      · intro hor
        exact absurd hor hne
    · intro _
      exact ⟨rfl, rfl⟩

/-- Witness for C8 at a concrete input: with only "Doorbell" enabled, an
above-threshold "Siren" detection is filtered out — no emit effect, state
unchanged, console prints only. -/
theorem C8_enablement_filter_witness :
    (1 : ℚ) > CONFIDENCE_THRESHOLD ∧
    ((⟨schedule_config_init, ["Doorbell"], [], [], sound_stats_init⟩ : ServerState).enabled_sounds.isEmpty
        || (⟨schedule_config_init, ["Doorbell"], [], [], sound_stats_init⟩ : ServerState).enabled_sounds.contains "Siren") = false ∧
    ((Effect.emit_sound_alert ⟨"Siren", 1, "12:00:00", getD CRITICAL_SOUNDS "Siren" 1, 999⟩
        ∈ (process_detection ⟨schedule_config_init, ["Doorbell"], [], [], sound_stats_init⟩
            "Siren" 1 "12:00:00" "2025-09-14 12:00" 3600 3600 999).2)
      ↔ ((⟨schedule_config_init, ["Doorbell"], [], [], sound_stats_init⟩ : ServerState).enabled_sounds = []
          ∨ "Siren" ∈ (⟨schedule_config_init, ["Doorbell"], [], [], sound_stats_init⟩ : ServerState).enabled_sounds)) ∧
    (process_detection ⟨schedule_config_init, ["Doorbell"], [], [], sound_stats_init⟩
        "Siren" 1 "12:00:00" "2025-09-14 12:00" 3600 3600 999).1
      = ⟨schedule_config_init, ["Doorbell"], [], [], sound_stats_init⟩ :=
  ⟨by decide, by decide,
   (C8_enablement_filter ⟨schedule_config_init, ["Doorbell"], [], [], sound_stats_init⟩
     "Siren" 1 "12:00:00" "2025-09-14 12:00" 3600 3600 999 (by decide)).1,
   ((C8_enablement_filter ⟨schedule_config_init, ["Doorbell"], [], [], sound_stats_init⟩
     "Siren" 1 "12:00:00" "2025-09-14 12:00" 3600 3600 999 (by decide)).2 (by decide)).1⟩

/-- C1: an accepted and enabled detection always writes the CSV log
record, applies the stats update, appends the alert to the recent-alerts
history, and emits the live broadcast — regardless of the cooldown
outcome; the cooldown outcome gates exactly the side-notification action,
and the cooldown map becomes whatever the cooldown decision left it. -/
theorem C1_accepted_enabled_effects (st : ServerState) (sound_name : String)
    (confidence : ℚ) (timestamp_str hour_key : String) (epoch current_time : ℚ)
    (alert_id : Int)
    (hconf : confidence > CONFIDENCE_THRESHOLD)
    (hen : (st.enabled_sounds.isEmpty || st.enabled_sounds.contains sound_name) = true) :
    Effect.log_csv sound_name confidence (getD CRITICAL_SOUNDS sound_name 1) timestamp_str
        ∈ (process_detection st sound_name confidence timestamp_str hour_key
            epoch current_time alert_id).2 ∧
    (process_detection st sound_name confidence timestamp_str hour_key
        epoch current_time alert_id).1.sound_stats
      = update_stats st.sound_stats ⟨sound_name, confidence, timestamp_str, hour_key, epoch⟩ ∧
    (process_detection st sound_name confidence timestamp_str hour_key
        epoch current_time alert_id).1.recent_alerts.getLast?
      = some ⟨sound_name, confidence, timestamp_str, getD CRITICAL_SOUNDS sound_name 1, alert_id⟩ ∧
    Effect.emit_sound_alert ⟨sound_name, confidence, timestamp_str,
        getD CRITICAL_SOUNDS sound_name 1, alert_id⟩
      ∈ (process_detection st sound_name confidence timestamp_str hour_key
          epoch current_time alert_id).2 ∧
    ((Effect.print_alert_sent ∈ (process_detection st sound_name confidence timestamp_str
          hour_key epoch current_time alert_id).2)
      ↔ (should_fire st.last_notification_times sound_name
          (getD CRITICAL_SOUNDS sound_name 1) current_time).1 = true) ∧
    (process_detection st sound_name confidence timestamp_str hour_key
        epoch current_time alert_id).1.last_notification_times
      = (should_fire st.last_notification_times sound_name
          (getD CRITICAL_SOUNDS sound_name 1) current_time).2 := by
  rw [process_detection_enabled_eq st sound_name confidence timestamp_str hour_key
      epoch current_time alert_id hconf hen]
  refine ⟨by simp, rfl, ?_, by simp, ?_, rfl⟩
  · split
    · rename_i hlen
      rw [List.drop_append_of_le_length (by simp at hlen; omega)]
      exact List.getLast?_concat _
    · exact List.getLast?_concat _
  · cases hsf : (should_fire st.last_notification_times sound_name
        (getD CRITICAL_SOUNDS sound_name 1) current_time).1
    · simp [hsf]
    · simp [hsf]

/-- Witness for C1 at a concrete input: a confident "Fire alarm"
detection with no filter configured is logged, recorded and broadcast. -/
theorem C1_accepted_enabled_effects_witness :
    (1 : ℚ) > CONFIDENCE_THRESHOLD ∧
    (server_state_init.enabled_sounds.isEmpty
        || server_state_init.enabled_sounds.contains "Fire alarm") = true ∧
    Effect.log_csv "Fire alarm" 1 (getD CRITICAL_SOUNDS "Fire alarm" 1) "12:00:00"
        ∈ (process_detection server_state_init "Fire alarm" 1 "12:00:00"
            "2025-09-14 12:00" 3600 3600 999).2 ∧
    Effect.emit_sound_alert ⟨"Fire alarm", 1, "12:00:00", getD CRITICAL_SOUNDS "Fire alarm" 1, 999⟩
        ∈ (process_detection server_state_init "Fire alarm" 1 "12:00:00"
            "2025-09-14 12:00" 3600 3600 999).2 :=
  ⟨by decide, by decide,
   (C1_accepted_enabled_effects server_state_init "Fire alarm" 1 "12:00:00"
     "2025-09-14 12:00" 3600 3600 999 (by decide) (by decide)).1,
   (C1_accepted_enabled_effects server_state_init "Fire alarm" 1 "12:00:00"
     "2025-09-14 12:00" 3600 3600 999 (by decide) (by decide)).2.2.2.1⟩

/-- Folding `update_stats` from an empty stats state: the timeline holds
the last 200 recorded entries in order and both counter dicts sum to the
number of recorded events. -/
theorem foldl_update_stats (events : List StatsEvent) (st0 : SoundStats)
    (h1 : st0.hourly_counts = []) (h2 : st0.sound_frequency = [])
    (h3 : st0.daily_timeline = []) :
    (events.foldl update_stats st0).daily_timeline
        = (events.map mkTimelineEntry).drop (events.length - 200) ∧
    sumVals (events.foldl update_stats st0).hourly_counts = events.length ∧
    sumVals (events.foldl update_stats st0).sound_frequency = events.length := by
  induction events using List.reverseRecOn with
  | nil => simp [h1, h2, h3, sumVals]
  | append_singleton l e ih =>
    obtain ⟨htl, hh, hf⟩ := ih
    have hfold : (l ++ [e]).foldl update_stats st0
        = update_stats (l.foldl update_stats st0) e := by
      simp
    have hlen : (l.foldl update_stats st0).daily_timeline.length
        = l.length - (l.length - 200) := by
      rw [htl]
      simp
    refine ⟨?_, ?_, ?_⟩
    · rw [hfold]
      simp only [update_stats]
      by_cases hc : 200 ≤ l.length
      · have h200 : (l.foldl update_stats st0).daily_timeline.length = 200 := by omega
        have hlen1 : ((l.foldl update_stats st0).daily_timeline ++ [mkTimelineEntry e]).length
            = 201 := by
          simp [h200]
        rw [if_pos (by rw [hlen1]; omega), hlen1]
        have h1 : (201 : Nat) - 200 = 1 := rfl
        rw [h1]
        rw [List.drop_append_of_le_length (by omega)]
        rw [htl, List.drop_drop]
        have harith : l.length - 200 + 1 = l.length + 1 - 200 := by omega
        rw [harith]
        have hlen2 : (l ++ [e]).length = l.length + 1 := by simp
        rw [hlen2]
        have hmap : (l ++ [e]).map mkTimelineEntry
            = l.map mkTimelineEntry ++ [mkTimelineEntry e] := by simp
        rw [hmap]
        rw [List.drop_append_of_le_length (by simp only [List.length_map]; omega)]
      · have hlen0 : (l.foldl update_stats st0).daily_timeline.length = l.length := by omega
        rw [if_neg (by simp [hlen0]; omega)]
        rw [htl]
        have hz : l.length - 200 = 0 := by omega
        have hz2 : l.length + 1 - 200 = 0 := by omega
        simp [hz, hz2]
    · rw [hfold]
      simp only [update_stats]
      rw [sumVals_bump, hh]
      simp
    · rw [hfold]
      simp only [update_stats]
      rw [sumVals_bump, hf]
      simp

/-- C7: the stats timeline never exceeds 200 entries after any record
operation; starting from an empty stats state, recording 250 events
leaves the timeline holding exactly the last 200 events in order (the
oldest 50 evicted, FIFO) while the hourly and per-label counters still
sum to all 250 recorded events. -/
theorem C7_stats_bounding :
    (∀ (st : SoundStats) (e : StatsEvent),
        (update_stats st e).daily_timeline.length ≤ 200) ∧
    (∀ (events : List StatsEvent) (st0 : SoundStats),
        st0.hourly_counts = [] → st0.sound_frequency = [] →
        st0.daily_timeline = [] → events.length = 250 →
        (events.foldl update_stats st0).daily_timeline
            = (events.map mkTimelineEntry).drop 50 ∧
        (events.foldl update_stats st0).daily_timeline.length = 200 ∧
        sumVals (events.foldl update_stats st0).hourly_counts = 250 ∧
        sumVals (events.foldl update_stats st0).sound_frequency = 250) := by
  constructor
  · intro st e
    simp only [update_stats]
    split
    · rename_i hgt
      simp only [List.length_drop]
      omega
    · rename_i hle
      simp only [List.length_append] at hle ⊢
      omega
  · intro events st0 h1 h2 h3 h250
    obtain ⟨htl, hh, hf⟩ := foldl_update_stats events st0 h1 h2 h3
    refine ⟨?_, ?_, ?_, ?_⟩
    · rw [htl, h250]
    · rw [htl]
      simp [h250]
    · rw [hh, h250]
    · rw [hf, h250]

/-- Witness for C7: recording 250 copies of a concrete event from the
startup stats state leaves the timeline at the last 200 entries and the
counters summing to 250. -/
theorem C7_stats_bounding_witness :
    sound_stats_init.hourly_counts = [] ∧
    sound_stats_init.sound_frequency = [] ∧
    sound_stats_init.daily_timeline = [] ∧
    (List.replicate 250 (StatsEvent.mk "Siren" 1 "12:00:00" "2025-09-14 12:00" 1000)).length = 250 ∧
    ((List.replicate 250 (StatsEvent.mk "Siren" 1 "12:00:00" "2025-09-14 12:00" 1000)).foldl
        update_stats sound_stats_init).daily_timeline
      = ((List.replicate 250 (StatsEvent.mk "Siren" 1 "12:00:00" "2025-09-14 12:00" 1000)).map
          mkTimelineEntry).drop 50 ∧
    sumVals ((List.replicate 250 (StatsEvent.mk "Siren" 1 "12:00:00" "2025-09-14 12:00" 1000)).foldl
        update_stats sound_stats_init).hourly_counts = 250 ∧
    sumVals ((List.replicate 250 (StatsEvent.mk "Siren" 1 "12:00:00" "2025-09-14 12:00" 1000)).foldl
        update_stats sound_stats_init).sound_frequency = 250 :=
  ⟨rfl, rfl, rfl, List.length_replicate 250 _,
   (C7_stats_bounding.2 (List.replicate 250 _) sound_stats_init rfl rfl rfl
     (List.length_replicate 250 _)).1,
   (C7_stats_bounding.2 (List.replicate 250 _) sound_stats_init rfl rfl rfl
     (List.length_replicate 250 _)).2.2.1,
   (C7_stats_bounding.2 (List.replicate 250 _) sound_stats_init rfl rfl rfl
     (List.length_replicate 250 _)).2.2.2⟩

/-- C6: an exception raised anywhere in the try block of an iteration is
caught at the loop boundary, logged, and followed by a 1-second sleep,
after which the loop continues on the remaining trace; a false monitoring
flag observed at the start of an iteration stops the loop immediately;
and while the flag stays true the loop processes every iteration — it
never terminates because of an error. -/
theorem C6_loop_resilience :
    (∀ (st : ServerState) (inp : CycleInput) (rest : List CycleInput)
        (f : ServerState → ServerState),
        inp.flag = true →
        is_within_schedule st.schedule inp.day_name inp.current_time_str = true →
        inp.outcome = CycleOutcome.exn f →
        monitor_loop st (inp :: rest)
          = ((monitor_loop (f st) rest).1,
             Effect.print_error :: Effect.sleep 1 :: (monitor_loop (f st) rest).2)) ∧
    (∀ (st : ServerState) (inp : CycleInput) (rest : List CycleInput),
        inp.flag = false → monitor_loop st (inp :: rest) = (st, [])) ∧
    (∀ (st : ServerState) (inputs : List CycleInput),
        (∀ x ∈ inputs, x.flag = true) →
        (monitor_loop st inputs).1
          = inputs.foldl (fun s c => (loop_iter s c).1) st) := by
  refine ⟨?_, ?_, ?_⟩
  · intro st inp rest f hflag hsched hout
    have hiter : loop_iter st inp = (f st, [Effect.print_error, Effect.sleep 1]) := by
      unfold loop_iter
      rw [if_neg (by rw [hsched]; simp), hout]
    simp only [monitor_loop]
    rw [if_pos hflag]
    rw [hiter]
    rfl
  · intro st inp rest hflag
    simp only [monitor_loop]
    rw [if_neg (by rw [hflag]; simp)]
  · intro st inputs
    induction inputs generalizing st with
    | nil =>
      intro _
      rfl
    | cons inp rest ih =>
      intro hall
      have hflag : inp.flag = true := hall inp (by simp)
      simp only [monitor_loop]
      rw [if_pos hflag]
      rw [List.foldl_cons]
      exact ih (loop_iter st inp).1 (fun x hx => hall x (List.mem_cons_of_mem _ hx))

/-- Witness for C6: a single-iteration trace whose try block raises with
no committed state change is caught and followed by the error print and
1-second sleep; a false flag stops the loop; an all-true-flag trace is
fully processed. -/
theorem C6_loop_resilience_witness :
    (CycleInput.mk true "Mon" "12:00" (CycleOutcome.exn id)).flag = true ∧
    is_within_schedule server_state_init.schedule "Mon" "12:00" = true ∧
    (CycleInput.mk true "Mon" "12:00" (CycleOutcome.exn id)).outcome = CycleOutcome.exn id ∧
    monitor_loop server_state_init [CycleInput.mk true "Mon" "12:00" (CycleOutcome.exn id)]
      = ((monitor_loop (id server_state_init) []).1,
         Effect.print_error :: Effect.sleep 1 :: (monitor_loop (id server_state_init) []).2) ∧
    monitor_loop server_state_init [CycleInput.mk false "Mon" "12:00" (CycleOutcome.exn id)]
      = (server_state_init, []) ∧
    (monitor_loop server_state_init [CycleInput.mk true "Mon" "12:00" (CycleOutcome.exn id)]).1
      = [CycleInput.mk true "Mon" "12:00" (CycleOutcome.exn id)].foldl
          (fun s c => (loop_iter s c).1) server_state_init :=
  ⟨rfl, by decide, rfl,
   C6_loop_resilience.1 server_state_init (CycleInput.mk true "Mon" "12:00" (CycleOutcome.exn id))
     [] id rfl (by decide) rfl,
   C6_loop_resilience.2.1 server_state_init (CycleInput.mk false "Mon" "12:00" (CycleOutcome.exn id))
     [] rfl,
   C6_loop_resilience.2.2 server_state_init [CycleInput.mk true "Mon" "12:00" (CycleOutcome.exn id)]
     (by simp)⟩

/-- C9: for every input sample sequence and rate, `prepare` (resample to
`len*16000/rate` samples when the rate differs from 16 kHz, then trim or
zero-pad) returns exactly 15600 samples: the first 15600 samples when the
resampled data is longer, and the data right-padded with zeros when it is
shorter. -/
theorem C9_prepare_length (resample : List ℚ → Nat → List ℚ) (audio : List ℚ)
    (sample_rate : Nat) :
    (prepare resample audio sample_rate).length = 15600 ∧
    ((if sample_rate ≠ 16000 then
        resample audio (audio.length * 16000 / sample_rate) else audio).length > 15600 →
      prepare resample audio sample_rate
        = (if sample_rate ≠ 16000 then
            resample audio (audio.length * 16000 / sample_rate) else audio).take 15600) ∧
    ((if sample_rate ≠ 16000 then
        resample audio (audio.length * 16000 / sample_rate) else audio).length < 15600 →
      prepare resample audio sample_rate
        = (if sample_rate ≠ 16000 then
            resample audio (audio.length * 16000 / sample_rate) else audio)
          ++ List.replicate (15600 - (if sample_rate ≠ 16000 then
              resample audio (audio.length * 16000 / sample_rate) else audio).length) 0) := by
  unfold prepare
  dsimp only
  set a := if sample_rate ≠ 16000 then
      resample audio (audio.length * 16000 / sample_rate) else audio with ha
  refine ⟨?_, ?_, ?_⟩
  · by_cases hgt : a.length > 15600
    · rw [if_pos hgt]
      simp only [List.length_take]
      omega
    · rw [if_neg hgt]
      by_cases hlt : a.length < 15600
      · rw [if_pos hlt]
        simp only [List.length_append, List.length_replicate]
        omega
      · rw [if_neg hlt]
        omega
  · intro hgt
    rw [if_pos hgt]
  · intro hlt
    rw [if_neg (by omega), if_pos hlt]

/-- Witness for C9: an empty capture at 48 kHz resamples to the empty
list, falls in the padding branch, and comes out as 15600 zeros. -/
theorem C9_prepare_length_witness :
    (List.replicate 0 (0 : ℚ)).length < 15600 ∧
    (prepare (fun _ n => List.replicate n 0) ([] : List ℚ) 48000).length = 15600 ∧
    prepare (fun _ n => List.replicate n 0) ([] : List ℚ) 48000
      = List.replicate 0 (0 : ℚ)
        ++ List.replicate (15600 - (List.replicate 0 (0 : ℚ)).length) 0 :=
  ⟨by decide,
   (C9_prepare_length (fun _ n => List.replicate n 0) ([] : List ℚ) 48000).1,
   (C9_prepare_length (fun _ n => List.replicate n 0) ([] : List ℚ) 48000).2.2 (by decide)⟩

/-- A key absent from a dict's key list looks up to `none`. -/
theorem lookupK_eq_none_of_not_mem {α : Type} (m : List (String × α)) (k : String)
    (h : k ∉ m.map Prod.fst) : lookupK m k = none := by
  induction m with
  | nil => rfl
  | cons hd tl ih =>
    obtain ⟨k0, v0⟩ := hd
    simp only [List.map_cons, List.mem_cons] at h
    push_neg at h
    simp only [lookupK]
    rw [if_neg (fun he => h.1 he.symm)]
    exact ih h.2

/-- `dictUpdate` looks up to the update's value on updated keys and to
the base's value elsewhere, provided the update has no duplicate keys. -/
theorem lookupK_dictUpdate {α : Type} (base delta : List (String × α))
    (hnd : (delta.map Prod.fst).Nodup) (k : String) :
    lookupK (dictUpdate base delta) k = (lookupK delta k).or (lookupK base k) := by
  induction delta generalizing base with
  | nil => simp [dictUpdate, lookupK]
  | cons hd tl ih =>
    obtain ⟨k0, v0⟩ := hd
    simp only [List.map_cons, List.nodup_cons] at hnd
    obtain ⟨hk0, hnd'⟩ := hnd
    have hstep : dictUpdate base ((k0, v0) :: tl) = dictUpdate (setK base k0 v0) tl := rfl
    rw [hstep, ih (setK base k0 v0) hnd']
    by_cases hk : k0 = k
    · subst hk
      have hnone : lookupK tl k0 = none := lookupK_eq_none_of_not_mem tl k0 hk0
      rw [hnone, lookupK_setK_self]
      simp [lookupK]
    · rw [lookupK_setK_ne base k0 k v0 hk]
      simp [lookupK, hk]

/-- C10: a POST of a JSON object to the schedule endpoint merges the
supplied keys into the stored configuration rather than replacing it:
each supplied key takes its new value, every absent key keeps its
previous value, and keys outside the schema are merged in without
validation. -/
theorem C10_schedule_merge {α : Type} (cfg data : List (String × α))
    (hnd : (data.map Prod.fst).Nodup) (k : String) :
    lookupK (manage_schedule_post cfg (some data)) k
      = (lookupK data k).or (lookupK cfg k) := by
  have hreduce : manage_schedule_post cfg (some data)
      = if data.isEmpty = true then cfg else dictUpdate cfg data := rfl
  rw [hreduce]
  by_cases hd : data.isEmpty
  · have hnil : data = [] := by simpa [List.isEmpty_iff] using hd
    subst hnil
    simp [lookupK]
  · rw [if_neg (by simpa using hd)]
    exact lookupK_dictUpdate cfg data hnd k

/-- The stored schedule configuration rendered as a string-valued dict,
for exercising the merge endpoint. -/
def schedule_dict : List (String × String) :=
  [("enabled", "false"), ("start_time", "22:00"), ("end_time", "07:00"),
   ("days", "Mon Tue Wed Thu Fri Sat Sun")]

/-- Witness for C10: posting a body that changes `start_time` and adds an
out-of-schema key overwrites `start_time`, keeps `days`, and merges the
new key. -/
theorem C10_schedule_merge_witness :
    ((([("start_time", "08:00"), ("custom", "x")] : List (String × String)).map Prod.fst).Nodup) ∧
    lookupK (manage_schedule_post schedule_dict
        (some [("start_time", "08:00"), ("custom", "x")])) "start_time"
      = (lookupK [("start_time", "08:00"), ("custom", "x")] "start_time").or
          (lookupK schedule_dict "start_time") ∧
    lookupK (manage_schedule_post schedule_dict
        (some [("start_time", "08:00"), ("custom", "x")])) "days"
      = (lookupK [("start_time", "08:00"), ("custom", "x")] "days").or
          (lookupK schedule_dict "days") ∧
    lookupK (manage_schedule_post schedule_dict
        (some [("start_time", "08:00"), ("custom", "x")])) "custom"
      = (lookupK [("start_time", "08:00"), ("custom", "x")] "custom").or
          (lookupK schedule_dict "custom") :=
  ⟨by decide,
   C10_schedule_merge schedule_dict [("start_time", "08:00"), ("custom", "x")] (by decide) "start_time",
   C10_schedule_merge schedule_dict [("start_time", "08:00"), ("custom", "x")] (by decide) "days",
   C10_schedule_merge schedule_dict [("start_time", "08:00"), ("custom", "x")] (by decide) "custom"⟩

end SoundAlertPro
